import Mathlib

/-!
Verification of the result_ai_sdk / testai_sdk interception and telemetry
pipeline.  The definitions below are a shallow embedding of the Python
sources:

* `result_ai_sdk/patch.py`   — `FunctionPatcher`, `result_ai` scope,
  `result_ai_wrapper`, `convert_to_json_serializable`,
  `SUPPORTED_MODULES_TO_PATCH`, module level `start_queue_worker()` call;
* `result_ai_sdk/queue_utils.py` — `queue_worker`, `start_queue_worker`;
* `testai_sdk/core.py`       — `result_ai_cm.new_create`, `__enter__`,
  `__exit__`.

Python callables that live at a patchable entry point are modelled by the
inductive `PyVal`; a Python attribute table (the "live" entry points that
`wrapt.resolve_path` + `setattr` manipulate) is a total map
`Target → PyVal`.  Python `None` is `PyVal.pynone`.  Exceptions are
modelled with `Except` (payload `Nat`); places where the Python code can
only fail through an external effect (a failing `setattr` during
restoration, a failing bookkeeping step, the state of the process
environment) are parameterised by explicit oracles.
-/

/-- A Python value that can sit at a patched entry point: `None`, an
ordinary callable (identified by a tag), or a `wrapt` wrapper produced by
`result_ai_wrapper_with_arguments` inside scope `sid` around an inner
value. -/
inductive PyVal
  | pynone
  | func (id : Nat)
  | wrapper (inner : PyVal) (sid : Nat)
deriving DecidableEq

/-- The address of one patchable entry point: the dotted module path and
the attribute path, exactly the pair that `wrapt.resolve_path` receives. -/
abbrev Target := String × String

/-- `setattr`: point update of the live attribute table. -/
def upd (live : Target → PyVal) (t : Target) (v : PyVal) : Target → PyVal :=
  fun s => if s = t then v else live s

/-- Helper for `versionParse`: digits accumulate into the current
component, a dot starts a new component. -/
def parse_version_component : List Char → Nat → List Nat
  | [], acc => [acc]
  | c :: cs, acc =>
    if c = '.' then acc :: parse_version_component cs 0
    else parse_version_component cs (acc * 10 + (c.toNat - 48))

/-- `packaging.version.parse` restricted to the plain dotted-numeric
release versions that the repository configures ("1.0.0", "0.3.0"). -/
def versionParse (s : String) : List Nat :=
  parse_version_component s.toList 0

/-- Strict comparison of parsed versions, component-wise from the left,
as `packaging.version` orders plain release versions. -/
def versionLt : List Nat → List Nat → Bool
  | [], [] => false
  | [], _ :: _ => true
  | _ :: _, [] => false
  | a :: more_a, b :: more_b =>
    if a < b then true else if b < a then false else versionLt more_a more_b

/-- `FunctionPatcher` (patch.py lines 37-44): pydantic model holding the
target coordinates, the version gate, and the mutable patch state.  The
field defaults mirror the pydantic defaults (`patched = False`,
`original_func = None`). -/
structure FunctionPatcher where
  module_name_to_patch : String
  func_name_to_patch : String
  root_module_name : String
  min_module_version : Option String := none
  max_module_version : Option String := none
  patched : Bool := false
  original_func : PyVal := PyVal.pynone
deriving DecidableEq

/-- The entry-point address a patcher owns. -/
def FunctionPatcher.target (p : FunctionPatcher) : Target :=
  (p.module_name_to_patch, p.func_name_to_patch)

/-- `FunctionPatcher.is_module_version_supported` (patch.py lines 46-72).
`env` models the process: it maps a root module name to the installed
version string, `none` when `importlib.metadata.version` raises the
`ImportError` that the source catches (returning `False`). -/
def FunctionPatcher.is_module_version_supported (env : String → Option String)
    (p : FunctionPatcher) : Bool :=
  match env p.root_module_name with
  | none => false
  | some version_str =>
    let module_version := versionParse version_str
    let below_min :=
      match p.min_module_version with
      | some m => versionLt module_version (versionParse m)
      | none => false
    let above_max :=
      match p.max_module_version with
      | some m => versionLt (versionParse m) module_version
      | none => false
    if below_min then false else if above_max then false else true

/-- `FunctionPatcher.patch` (patch.py lines 74-83): early return when the
version gate fails; otherwise `_wrap_func` reads the live entry point,
installs `wrapper(original)` (a `PyVal.wrapper` carrying the scope id),
saves the original, and marks the record patched. -/
def FunctionPatcher.patch (env : String → Option String) (sid : Nat)
    (live : Target → PyVal) (p : FunctionPatcher) :
    (Target → PyVal) × FunctionPatcher :=
  if p.is_module_version_supported env = false then (live, p)
  else
    (upd live p.target (PyVal.wrapper (live p.target) sid),
     { p with original_func := live p.target, patched := true })

/-- `FunctionPatcher.unpatch` (patch.py lines 85-90): early return when
not patched; otherwise `_patch_func` installs the saved
`original_func` back and the saved original is cleared to `None`.
Note the source does NOT reset `patched`.  `fails` is the oracle for the
`setattr` inside `_patch_func` raising; `none` models the exception
propagating out of `unpatch`. -/
def FunctionPatcher.unpatch (fails : Target → Bool) (live : Target → PyVal)
    (p : FunctionPatcher) : Option ((Target → PyVal) × FunctionPatcher) :=
  if p.patched = false then some (live, p)
  else if fails p.target = true then none
  else some (upd live p.target p.original_func,
             { p with original_func := PyVal.pynone })

/-- The openai entry of `SUPPORTED_MODULES_TO_PATCH` (patch.py 94-100). -/
def openaiPatcher : FunctionPatcher :=
  { module_name_to_patch := "openai.resources.chat.completions",
    func_name_to_patch := "Completions.create",
    root_module_name := "openai",
    min_module_version := some ("1.0.0"),
    max_module_version := none }

/-- The langchain entry of `SUPPORTED_MODULES_TO_PATCH` (patch.py
101-107). -/
def langchainPatcher : FunctionPatcher :=
  { module_name_to_patch := "langchain_core.language_models",
    func_name_to_patch := "BaseChatModel.generate",
    root_module_name := "langchain_core",
    min_module_version := some ("0.3.0"),
    max_module_version := none }

/-- `SUPPORTED_MODULES_TO_PATCH` (patch.py lines 93-108). -/
def SUPPORTED_MODULES_TO_PATCH : List FunctionPatcher :=
  [openaiPatcher, langchainPatcher]

/-- The loop body of `result_ai.__enter__` (patch.py 228-237): patch each
patcher in order, threading the live attribute table, collecting the
mutated patcher records. -/
def patchAll (env : String → Option String) (sid : Nat) :
    List FunctionPatcher → (Target → PyVal) →
    ((Target → PyVal) × List FunctionPatcher)
  | [], live => (live, [])
  | p :: ps, live =>
    ((patchAll env sid ps (p.patch env sid live).1).1,
     (p.patch env sid live).2 ::
       (patchAll env sid ps (p.patch env sid live).1).2)

/-- The loop body of `result_ai.__exit__` (patch.py 242-243): unpatch each
patcher in order.  There is no try/except around the loop body in the
source, so the first failing `unpatch` propagates: the traversal stops,
later patchers are left untouched, and the returned flag records that an
exception escaped `__exit__`. -/
def unpatchAll (fails : Target → Bool) :
    List FunctionPatcher → (Target → PyVal) →
    ((Target → PyVal) × List FunctionPatcher × Bool)
  | [], live => (live, [], false)
  | p :: ps, live =>
    match p.unpatch fails live with
    | none => (live, p :: ps, true)
    | some lp =>
      ((unpatchAll fails ps lp.1).1,
       lp.2 :: (unpatchAll fails ps lp.1).2.1,
       (unpatchAll fails ps lp.1).2.2)

/-- The `result_ai` context-manager object (patch.py 195-223): the
enabled flag and the scope-private deep copy of the patcher list. -/
structure ResultAiScope where
  enabled : Bool
  task_name : String
  prompt_template : String
  patchers : List FunctionPatcher

/-- `result_ai.__enter__` (patch.py 225-237): no-op when disabled,
otherwise patch every patcher of this scope. -/
def result_ai_enter (env : String → Option String) (sid : Nat)
    (s : ResultAiScope) (live : Target → PyVal) :
    (Target → PyVal) × ResultAiScope :=
  if s.enabled then
    ((patchAll env sid s.patchers live).1,
     { s with patchers := (patchAll env sid s.patchers live).2 })
  else (live, s)

/-- `result_ai.__exit__` (patch.py 239-243): no-op when disabled,
otherwise unpatch every patcher.  `exctype` is the exception raised by
the scope body (if any); the source ignores it, and Python's `with`
statement calls `__exit__` on both the normal and the raising path. -/
def result_ai_exit (fails : Target → Bool) (exctype : Option Nat)
    (s : ResultAiScope) (live : Target → PyVal) :
    (Target → PyVal) × List FunctionPatcher × Bool :=
  if s.enabled then unpatchAll fails s.patchers live
  else (live, s.patchers, false)

/-- One telemetry record as assembled by `result_ai_wrapper`
(patch.py 172-185); the dynamic payloads (timestamp, instance summary,
serialized arguments/response, latency) are summarised by the opaque
`response` tag carried by the delegate's return value. -/
structure TelemetryRecord where
  function_patched : String
  module_patched : String
  root_module_name_patched : String
  task_name : String
  prompt_template : String
  success : Bool
  response : Nat
deriving DecidableEq

/-- Equality of call results (return value or exception) is decidable. -/
instance {ε α : Type} [DecidableEq ε] [DecidableEq α] :
    DecidableEq (Except ε α) := fun x y =>
  match x, y with
  | Except.error a, Except.error b =>
    if h : a = b then isTrue (congrArg Except.error h)
    else isFalse (fun hh => h (Except.error.inj hh))
  | Except.ok a, Except.ok b =>
    if h : a = b then isTrue (congrArg Except.ok h)
    else isFalse (fun hh => h (Except.ok.inj hh))
  | Except.error _, Except.ok _ => isFalse (fun hh => Except.noConfusion hh)
  | Except.ok _, Except.error _ => isFalse (fun hh => Except.noConfusion hh)

/-- What one intercepted call produces: the value returned (or exception
propagated) to the caller, and the telemetry records enqueued by
`add_to_queue` during the call. -/
structure CallOutcome where
  result : Except Nat Nat
  enqueued : List TelemetryRecord
deriving DecidableEq

/-- The interceptor `result_ai_wrapper` built by
`result_ai_wrapper_with_arguments` (patch.py 124-192).  The pre hook
(timestamp capture) sits in its own try/except, the delegate call
`wrapped(*args, **kwargs)` is outside every try, and the whole post hook
(latency, summaries, serialization, enqueue) sits in a try/except whose
handler only logs.  `pre_hook_fails` / `post_hook_fails` are the oracles
for an exception inside the respective bookkeeping block; `wrapped` is
the outcome of the delegated original callable.  A record reaches the
queue exactly when the delegate returned, the pre hook succeeded
(`pre_hook_success` guards the post hook) and the post hook ran to its
final `add_to_queue` without raising. -/
def result_ai_wrapper (task_name prompt_template : String)
    (patcher : FunctionPatcher) (pre_hook_fails post_hook_fails : Bool)
    (wrapped : Except Nat Nat) : CallOutcome :=
  let pre_hook_success := !pre_hook_fails
  match wrapped with
  | Except.error e => { result := Except.error e, enqueued := [] }
  | Except.ok response =>
    if pre_hook_success && !post_hook_fails then
      { result := Except.ok response,
        enqueued := [{ function_patched := patcher.func_name_to_patch,
                       module_patched := patcher.module_name_to_patch,
                       root_module_name_patched := patcher.root_module_name,
                       task_name := task_name,
                       prompt_template := prompt_template,
                       success := true,
                       response := response }] }
    else { result := Except.ok response, enqueued := [] }

/-- One record as assembled by `result_ai_cm.new_create`
(core.py 163-187). -/
structure CoreTelemetryRecord where
  user_id : String
  task : String
  success : Bool
  response : Nat
deriving DecidableEq

/-- Outcome of one call through `result_ai_cm.new_create`. -/
structure CoreCallOutcome where
  result : Except Nat Nat
  enqueued : List CoreTelemetryRecord
deriving DecidableEq

/-- The legacy interceptor `new_create` (core.py 139-191).  The whole
body — delegate call AND all bookkeeping — sits in one try/except whose
handler logs and then re-raises (`raise`).  `bookkeeping_fails = some e`
models the bookkeeping after the delegate returned (response field
access, record assembly, enqueue) raising exception `e`: that exception
is logged and re-raised to the caller, and no record is enqueued. -/
def new_create (task_name : String) (bookkeeping_fails : Option Nat)
    (old_func_result : Except Nat Nat) : CoreCallOutcome :=
  match old_func_result with
  | Except.error e => { result := Except.error e, enqueued := [] }
  | Except.ok res =>
    match bookkeeping_fails with
    | some e => { result := Except.error e, enqueued := [] }
    | none =>
      { result := Except.ok res,
        enqueued := [{ user_id := "1897ce6d-5694-41ce-a75d-8ea9e4dc81b4",
                       task := task_name,
                       success := true,
                       response := res }] }

/-- `result_ai_cm.__enter__` (core.py 125-197) restricted to its patch
effect: save `Completions.create` into `old_func`, install the fresh
`new_create` closure (modelled as a wrapper value tagged by the
context-manager instance `sid`).  Returns the new live table and the
saved `old_func`. -/
def core_cm_enter (sid : Nat) (live : Target → PyVal) :
    (Target → PyVal) × PyVal :=
  (upd live openaiPatcher.target (PyVal.wrapper (live openaiPatcher.target) sid),
   live openaiPatcher.target)

/-- `result_ai_cm.__exit__` (core.py 199-215): restore the saved
callable and clear `old_func` to `None`. -/
def core_cm_exit (old_func : PyVal) (live : Target → PyVal) :
    (Target → PyVal) × PyVal :=
  (upd live openaiPatcher.target old_func, PyVal.pynone)

/-!  Serialization (`convert_to_json_serializable`, patch.py 111-121).
`PyObj` models a caller-supplied Python object by how the external
`json.dumps` behaves on it, following the documented contract of the
Python `json` module: serializable objects encode, objects of
unsupported type raise `TypeError`, self-referential object graphs raise
`ValueError` ("Circular reference detected").  `jsonpickle.encode` with
`unpicklable=False, fail_safe=str` is total, and `json.loads` of its
output is total. -/

/-- A caller-supplied Python object, classified by the behaviour of the
strict encoder on it. -/
inductive PyObj
  | jsonOk (data : Nat)
  | nonSerializable (data : Nat)
  | circular (data : Nat)
deriving DecidableEq

/-- The two failure modes of the strict encoder that matter here. -/
inductive JsonError
  | typeError
  | valueError
deriving DecidableEq

/-- `json.dumps` per the Python `json` module contract. -/
def json_dumps : PyObj → Except JsonError String
  | PyObj.jsonOk d => Except.ok (toString d)
  | PyObj.nonSerializable _ => Except.error JsonError.typeError
  | PyObj.circular _ => Except.error JsonError.valueError

/-- `jsonpickle.encode(obj, unpicklable=False, fail_safe=str)`: total
best-effort string encoding. -/
def jsonpickle_encode : PyObj → String
  | PyObj.jsonOk d => toString d
  | PyObj.nonSerializable d => toString d
  | PyObj.circular d => toString d

/-- `json.loads` on the (always valid) output of `jsonpickle.encode`:
total, yields a JSON-serializable object graph. -/
def json_loads (s : String) : PyObj := PyObj.jsonOk s.length

/-- `convert_to_json_serializable` (patch.py 111-121): try
`json.dumps(obj)` and return `obj` on success; `except TypeError`
falls back to `json.loads(jsonpickle.encode(...))`.  Any other
exception from the strict encoder (e.g. the `ValueError` raised on a
circular reference) is NOT caught and propagates. -/
def convert_to_json_serializable (obj : PyObj) (show_warning : Bool) :
    Except JsonError PyObj :=
  match json_dumps obj with
  | Except.ok _ => Except.ok obj
  | Except.error JsonError.typeError =>
    Except.ok (json_loads (jsonpickle_encode obj))
  | Except.error JsonError.valueError => Except.error JsonError.valueError

/-!  The batching worker (`queue_utils.py`).  Time stamps are naturals;
an `ItemEvent` is one iteration of the inner drain loop that obtained an
item from the queue, together with the state of the process environment
at that instant (`env_api_key` is `os.getenv("RESULTAI_API_KEY")`) and
whether the subsequent `requests.post` would succeed. -/

/-- `BATCH_SIZE` (queue_utils.py line 30). -/
def BATCH_SIZE : Nat := 1

/-- `API_SETTINGS["endpoint"]` (queue_utils.py line 16). -/
def API_SETTINGS_endpoint : String :=
  "https://resultai-862818623075.europe-west1.run.app/prompts"

/-- The loop-local state of `queue_worker` (queue_utils.py 42-44). -/
structure QueueWorkerState where
  batch : List Nat
  last_send_time : Nat
  notified_no_api_key : Bool
deriving DecidableEq

/-- One HTTP POST issued by the worker (queue_utils.py 68-70). -/
structure PostRequest where
  endpoint : String
  prompts : List Nat
  api_key : String
deriving DecidableEq

/-- One drained queue item together with the world at that moment. -/
structure ItemEvent where
  item : Nat
  current_time : Nat
  env_api_key : Option String
  post_ok : Bool
deriving DecidableEq

/-- One pass of the body of the inner drain loop of `queue_worker`
(queue_utils.py 48-75): append the item to the batch; if the batch
reached `BATCH_SIZE` or the age bound, read the API key from the
environment NOW, warn once if it is missing, issue the POST (failure is
caught and only skips the `last_send_time` update), and reset the batch.
Returns the new state, the requests issued, and how many missing-key
warnings were logged. -/
def process_queue_item (st : QueueWorkerState) (ev : ItemEvent) :
    QueueWorkerState × List PostRequest × Nat :=
  let batch := st.batch ++ [ev.item]
  if BATCH_SIZE ≤ batch.length ∨ 3 ≤ ev.current_time - st.last_send_time then
    let api_key := ev.env_api_key.getD ""
    let warned := api_key == "" && !st.notified_no_api_key
    let notified := if warned then true else st.notified_no_api_key
    let last := if ev.post_ok then ev.current_time else st.last_send_time
    (⟨[], last, notified⟩,
     [⟨API_SETTINGS_endpoint, batch, api_key⟩],
     if warned then 1 else 0)
  else
    (⟨batch, st.last_send_time, st.notified_no_api_key⟩, [], 0)

/-- The worker's lifetime, as the fold of `process_queue_item` over the
trace of drained items: final state, all requests issued in order, and
the total number of missing-key warnings logged. -/
def run_queue_worker : QueueWorkerState → List ItemEvent →
    QueueWorkerState × List PostRequest × Nat
  | st, [] => (st, [], 0)
  | st, ev :: evs =>
    ((run_queue_worker (process_queue_item st ev).1 evs).1,
     (process_queue_item st ev).2.1 ++
       (run_queue_worker (process_queue_item st ev).1 evs).2.1,
     (process_queue_item st ev).2.2 +
       (run_queue_worker (process_queue_item st ev).1 evs).2.2)

/-- `start_queue_worker` (queue_utils.py 85-88): unconditionally create
a new daemon thread running `queue_worker` and start it.  The state is
the number of worker threads currently running in the process. -/
def start_queue_worker (running_workers : Nat) : Nat :=
  running_workers + 1

/-- The number of workers after `k` calls to `start_queue_worker` in a
process that starts with none. -/
def start_queue_worker_calls : Nat → Nat
  | 0 => 0
  | k + 1 => start_queue_worker (start_queue_worker_calls k)

/-- The module-level `start_queue_worker()` call (patch.py line 22):
Python imports a module once per process, so this runs exactly once. -/
def patch_module_init_workers : Nat := start_queue_worker 0

/-!  Aliasing model for `result_ai.__init__` (patch.py line 223).  The
`FunctionPatcher` records live in a heap addressed by allocation index;
the module-level `SUPPORTED_MODULES_TO_PATCH` list holds references to
the first cells, and `copy.deepcopy` allocates FRESH cells at the end of
the heap for the scope's private `self.patchers`.  Every mutation that
`__enter__`/`__exit__` performs goes through a reference of the scope. -/

/-- A process heap of patcher records plus the live attribute table. -/
structure PWorld where
  heap : List FunctionPatcher
  live : Target → PyVal

/-- The references held by the shared module-level
`SUPPORTED_MODULES_TO_PATCH` list: the initial heap cells. -/
def supported_modules_refs : List Nat := [0, 1]

/-- A `result_ai` instance: its enabled flag and the references to its
own deep-copied patcher records. -/
structure ResultAiObj where
  enabled : Bool
  patcher_refs : List Nat

/-- `result_ai.__init__` (patch.py 196-223): when enabled,
`copy.deepcopy(SUPPORTED_MODULES_TO_PATCH)` copies the referenced
records into fresh heap cells and the scope keeps references to the
copies; when disabled, `__init__` returns before copying. -/
def result_ai_init_heap (enabled : Bool) (w : PWorld) : PWorld × ResultAiObj :=
  if enabled then
    ({ w with heap :=
         w.heap ++ supported_modules_refs.filterMap (fun r => w.heap.get? r) },
     { enabled := true,
       patcher_refs :=
         (List.range
           (supported_modules_refs.filterMap (fun r => w.heap.get? r)).length).map
           (fun i => i + w.heap.length) })
  else (w, { enabled := false, patcher_refs := [] })

/-- `result_ai.__enter__` over the heap: patch each record the scope
references, writing the mutated record back into ITS OWN cell. -/
def result_ai_enter_heap (env : String → Option String) (sid : Nat)
    (w : PWorld) (s : ResultAiObj) : PWorld :=
  if s.enabled then
    s.patcher_refs.foldl (fun w1 r =>
      match w1.heap.get? r with
      | none => w1
      | some p =>
        { heap := w1.heap.set r (p.patch env sid w1.live).2,
          live := (p.patch env sid w1.live).1 }) w
  else w

/-- `result_ai.__exit__` over the heap: unpatch each record the scope
references (restoration itself succeeding), writing back into its own
cell. -/
def result_ai_exit_heap (w : PWorld) (s : ResultAiObj) : PWorld :=
  if s.enabled then
    s.patcher_refs.foldl (fun w1 r =>
      match w1.heap.get? r with
      | none => w1
      | some p =>
        match p.unpatch (fun _ => false) w1.live with
        | none => w1
        | some lp => { heap := w1.heap.set r lp.2, live := lp.1 }) w
  else w

/-- One scope operation performed by client code after construction. -/
inductive ScopeOp
  | enterOp (env : String → Option String) (sid : Nat)
  | exitOp

/-- Apply one scope operation to the world. -/
def apply_scope_op (s : ResultAiObj) (w : PWorld) : ScopeOp → PWorld
  | ScopeOp.enterOp env sid => result_ai_enter_heap env sid w s
  | ScopeOp.exitOp => result_ai_exit_heap w s

/-- Run a sequence of enter/exit operations on one scope instance. -/
def run_scope_ops (s : ResultAiObj) : PWorld → List ScopeOp → PWorld
  | w, [] => w
  | w, op :: ops => run_scope_ops s (apply_scope_op s w op) ops

/-!  Concrete instances used by witnesses and counterexamples. -/

/-- A process with openai 1.2.3 and langchain_core 0.3.5 installed: both
configured targets pass the version gate. -/
def sampleEnv : String → Option String := fun m =>
  if m = "openai" then some ("1.2.3")
  else if m = "langchain_core" then some ("0.3.5")
  else none

/-- A process with openai 0.9.0 (below the configured minimum 1.0.0) and
langchain_core 0.3.5 installed. -/
def lowEnv : String → Option String := fun m =>
  if m = "openai" then some ("0.9.0")
  else if m = "langchain_core" then some ("0.3.5")
  else none

/-- An initial live attribute table: an ordinary callable everywhere. -/
def initLive : Target → PyVal := fun _ => PyVal.func 0

/-- The entry-point address of the openai patcher. -/
def openaiTargetKey : Target :=
  ("openai.resources.chat.completions", "Completions.create")

/-- The entry-point address of the langchain patcher. -/
def langchainTargetKey : Target :=
  ("langchain_core.language_models", "BaseChatModel.generate")

/-- A restoration-failure oracle: the `setattr` restoring the openai
entry point raises, restoring anything else succeeds. -/
def c3_fails : Target → Bool :=
  fun t => t.1 == "openai.resources.chat.completions"

/-- The state after `__enter__` patched both configured targets under
`sampleEnv`. -/
def c3_entered : (Target → PyVal) × List FunctionPatcher :=
  patchAll sampleEnv 0 SUPPORTED_MODULES_TO_PATCH initLive

/-- The state after `__exit__` in which restoring the openai target (the
first of the two patched targets) raises. -/
def c3_exit : (Target → PyVal) × List FunctionPatcher × Bool :=
  unpatchAll c3_fails c3_entered.2 c3_entered.1

/-- A patched openai record, as it stands when `__exit__` runs. -/
def c3_pbad : FunctionPatcher :=
  { openaiPatcher with patched := true, original_func := PyVal.func 0 }

/-- A patched langchain record following the failing one. -/
def c3_post : List FunctionPatcher :=
  [{ langchainPatcher with patched := true, original_func := PyVal.func 0 }]

/-- State of the openai patcher after `patch()` under `sampleEnv`. -/
def c4_patched_state : (Target → PyVal) × FunctionPatcher :=
  openaiPatcher.patch sampleEnv 0 initLive

/-- State after the subsequent `unpatch()` (restoration succeeding). -/
def c4_after_unpatch : Option ((Target → PyVal) × FunctionPatcher) :=
  (c4_patched_state.2).unpatch (fun _ => false) c4_patched_state.1

/-- State after calling `unpatch()` a second time. -/
def c4_after_second_unpatch : Option ((Target → PyVal) × FunctionPatcher) :=
  c4_after_unpatch.bind (fun r => (r.2).unpatch (fun _ => false) r.1)

/-- A world whose heap holds exactly the two shared
`SUPPORTED_MODULES_TO_PATCH` records. -/
def c10_world : PWorld :=
  { heap := SUPPORTED_MODULES_TO_PATCH, live := initLive }

/-!  Helper lemmas about the patch state machine. -/

/-- `patch` never changes the coordinates of the patcher record. -/
theorem patch_target_eq (env : String → Option String) (sid : Nat)
    (live : Target → PyVal) (p : FunctionPatcher) :
    ((p.patch env sid live).2).target = p.target := by
  cases hs : p.is_module_version_supported env <;>
    simp [FunctionPatcher.patch, FunctionPatcher.target, hs]

/-- After `patch`, the record is marked patched exactly when it already
was or the version gate passed. -/
theorem patch_patched_eq (env : String → Option String) (sid : Nat)
    (live : Target → PyVal) (p : FunctionPatcher) :
    ((p.patch env sid live).2).patched =
      (p.patched || p.is_module_version_supported env) := by
  cases hs : p.is_module_version_supported env <;>
    simp [FunctionPatcher.patch, hs]

/-- `patch` writes the live table only at its own target. -/
theorem patch_live_frame (env : String → Option String) (sid : Nat)
    (live : Target → PyVal) (p : FunctionPatcher) (t : Target)
    (ht : t ≠ p.target) : (p.patch env sid live).1 t = live t := by
  cases hs : p.is_module_version_supported env <;>
    simp [FunctionPatcher.patch, hs, upd, ht]

/-- `patchAll` preserves the list of targets. -/
theorem patchAll_targets (env : String → Option String) (sid : Nat) :
    ∀ (ps : List FunctionPatcher) (live : Target → PyVal),
    ((patchAll env sid ps live).2).map FunctionPatcher.target =
      ps.map FunctionPatcher.target := by
  intro ps
  induction ps with
  | nil => intro live; rfl
  | cons p ps ih => intro live; simp [patchAll, patch_target_eq, ih]

/-- `patchAll` writes the live table only at targets of its patchers. -/
theorem patchAll_live_frame (env : String → Option String) (sid : Nat) :
    ∀ (ps : List FunctionPatcher) (live : Target → PyVal) (t : Target),
    t ∉ ps.map FunctionPatcher.target →
    (patchAll env sid ps live).1 t = live t := by
  intro ps
  induction ps with
  | nil => intro live t _; rfl
  | cons p ps ih =>
    intro live t ht
    have h1 : t ≠ p.target ∧ t ∉ ps.map FunctionPatcher.target := by
      simpa [not_or] using ht
    simp only [patchAll]
    rw [ih _ t h1.2, patch_live_frame env sid live p t h1.1]

/-- `unpatchAll` writes the live table only at targets of its patchers. -/
theorem unpatchAll_live_frame (fails : Target → Bool) :
    ∀ (ps : List FunctionPatcher) (live : Target → PyVal) (t : Target),
    t ∉ ps.map FunctionPatcher.target →
    (unpatchAll fails ps live).1 t = live t := by
  intro ps
  induction ps with
  | nil => intro live t _; rfl
  | cons p ps ih =>
    intro live t ht
    have h1 : t ≠ p.target ∧ t ∉ ps.map FunctionPatcher.target := by
      simpa [not_or] using ht
    by_cases hp : p.patched = false
    · simp only [unpatchAll, FunctionPatcher.unpatch, hp, if_pos]
      exact ih live t h1.2
    · have hp' : p.patched = true := by revert hp; cases p.patched <;> simp
      by_cases hf : fails p.target = true
      · simp [unpatchAll, FunctionPatcher.unpatch, hp', hf]
      · have hf' : fails p.target = false := by
          revert hf; cases fails p.target <;> simp
        simp only [unpatchAll, FunctionPatcher.unpatch, hp', hf']
        simp only [Bool.true_eq_false, Bool.false_eq_true, if_false]
        rw [ih _ t h1.2]
        simp [upd, h1.1]

/-- The live value produced by `unpatchAll` at a point depends on the
incoming table only through that point: the traversal, the failure
behaviour and the written values are all determined by the patcher
records alone. -/
theorem unpatchAll_congr (fails : Target → Bool) :
    ∀ (ps : List FunctionPatcher) (l l' : Target → PyVal) (t : Target),
    l t = l' t →
    (unpatchAll fails ps l).1 t = (unpatchAll fails ps l').1 t := by
  intro ps
  induction ps with
  | nil => intro l l' t h; exact h
  | cons p ps ih =>
    intro l l' t h
    by_cases hp : p.patched = false
    · simp only [unpatchAll, FunctionPatcher.unpatch, hp, if_pos]
      exact ih l l' t h
    · have hp' : p.patched = true := by revert hp; cases p.patched <;> simp
      by_cases hf : fails p.target = true
      · simp only [unpatchAll, FunctionPatcher.unpatch, hp', hf]
        simpa using h
      · have hf' : fails p.target = false := by
          revert hf; cases fails p.target <;> simp
        simp only [unpatchAll, FunctionPatcher.unpatch, hp', hf']
        simp only [Bool.true_eq_false, Bool.false_eq_true, if_false]
        apply ih
        by_cases htp : t = p.target <;> simp [upd, htp, h]

/-- Round trip: entering patches, exiting restores.  For a list of
initially-unpatched patchers with pairwise distinct targets, running the
`__exit__` loop (with every restoration succeeding) after the
`__enter__` loop leaves the live table exactly as it was, at every
target. -/
theorem patch_unpatch_roundtrip (env : String → Option String) (sid : Nat) :
    ∀ (ps : List FunctionPatcher) (live : Target → PyVal) (t : Target),
    (ps.map FunctionPatcher.target).Nodup →
    (∀ p ∈ ps, p.patched = false) →
    (unpatchAll (fun _ => false) (patchAll env sid ps live).2
        (patchAll env sid ps live).1).1 t = live t := by
  intro ps
  induction ps with
  | nil => intro live t _ _; rfl
  | cons p ps ih =>
    intro live t hnd hfresh
    have hndt : p.target ∉ ps.map FunctionPatcher.target :=
      (List.nodup_cons.mp hnd).1
    have hnd' : (ps.map FunctionPatcher.target).Nodup :=
      (List.nodup_cons.mp hnd).2
    have hfp : p.patched = false := hfresh p (List.mem_cons_self p ps)
    have hfresh' : ∀ q ∈ ps, q.patched = false :=
      fun q hq => hfresh q (List.mem_cons_of_mem p hq)
    cases hs : p.is_module_version_supported env with
    | false =>
      simp only [patchAll, FunctionPatcher.patch, hs, if_pos]
      simp only [unpatchAll, FunctionPatcher.unpatch, hfp, if_pos]
      exact ih live t hnd' hfresh'
    | true =>
      simp only [patchAll, FunctionPatcher.patch, hs]
      simp only [Bool.true_eq_false, if_false]
      simp only [unpatchAll, FunctionPatcher.unpatch, FunctionPatcher.target]
      simp only [Bool.true_eq_false, if_false, Bool.false_eq_true]
      rw [show (p.module_name_to_patch, p.func_name_to_patch) = p.target
        from rfl]
      by_cases htp : t = p.target
      · subst htp
        rw [unpatchAll_live_frame]
        · simp [upd]
        · rw [patchAll_targets]
          exact hndt
      · have hupd :
            (upd (patchAll env sid ps
                (upd live p.target (PyVal.wrapper (live p.target) sid))).1
              p.target (live p.target)) t =
            (patchAll env sid ps
                (upd live p.target (PyVal.wrapper (live p.target) sid))).1 t := by
          simp [upd, htp]
        rw [unpatchAll_congr _ _ _ _ t hupd]
        rw [ih (upd live p.target (PyVal.wrapper (live p.target) sid)) t hnd'
          hfresh']
        simp [upd, htp]

/-- After the `__enter__` loop, a record is marked patched exactly when
it already was or its version gate passed: skipped targets do not keep
compatible targets from activating. -/
theorem patchAll_patched_map (env : String → Option String) (sid : Nat) :
    ∀ (ps : List FunctionPatcher) (live : Target → PyVal),
    ((patchAll env sid ps live).2).map (fun q => q.patched) =
      ps.map (fun q => q.patched || q.is_module_version_supported env) := by
  intro ps
  induction ps with
  | nil => intro live; rfl
  | cons p ps ih => intro live; simp [patchAll, patch_patched_eq, ih]

/-- Shape of the `__exit__` loop around a failing restoration: the
patchers before the failing one are processed, and at the failing one
the exception escapes, leaving it and everything after it untouched. -/
theorem unpatchAll_failure_split (fails : Target → Bool) :
    ∀ (pre : List FunctionPatcher) (pbad : FunctionPatcher)
      (post : List FunctionPatcher) (live : Target → PyVal),
    (∀ p ∈ pre, fails p.target = false) →
    fails pbad.target = true → pbad.patched = true →
    unpatchAll fails (pre ++ pbad :: post) live =
      ((unpatchAll fails pre live).1,
       (unpatchAll fails pre live).2.1 ++ pbad :: post, true) := by
  intro pre
  induction pre with
  | nil =>
    intro pbad post live _ hf hp
    simp [unpatchAll, FunctionPatcher.unpatch, hp, hf]
  | cons p pre ih =>
    intro pbad post live hpre hf hp
    have hfp : fails p.target = false := hpre p (List.mem_cons_self p pre)
    have hpre' : ∀ q ∈ pre, fails q.target = false :=
      fun q hq => hpre q (List.mem_cons_of_mem p hq)
    by_cases hpat : p.patched = false
    · simp only [List.cons_append, unpatchAll, FunctionPatcher.unpatch, hpat,
        if_pos, List.append_eq]
      rw [ih pbad post live hpre' hf hp]
    · have hpat' : p.patched = true := by
        revert hpat; cases p.patched <;> simp
      simp only [List.cons_append, unpatchAll, FunctionPatcher.unpatch, hpat',
        hfp, List.append_eq]
      simp only [Bool.true_eq_false, Bool.false_eq_true, if_false]
      rw [ih pbad post (upd live p.target p.original_func) hpre' hf hp]
      simp

/-!  List helpers used by the heap (aliasing) model. -/

/-- Setting a cell at or beyond `n` does not change the first `n`
cells. -/
theorem take_set_of_le {α : Type} (v : α) :
    ∀ (l : List α) (r n : Nat), n ≤ r → (l.set r v).take n = l.take n := by
  intro l
  induction l with
  | nil => intro r n _; rfl
  | cons a l ih =>
    intro r n hn
    cases r with
    | zero =>
      have : n = 0 := Nat.le_zero.mp hn
      subst this; rfl
    | succ r =>
      cases n with
      | zero => rfl
      | succ n =>
        simp only [List.set, List.take]
        rw [ih r n (Nat.le_of_succ_le_succ hn)]

/-- Taking at most the length of the left part of an append stays inside
the left part. -/
theorem take_append_left_of_le {α : Type} :
    ∀ (l1 l2 : List α) (n : Nat), n ≤ l1.length →
    (l1 ++ l2).take n = l1.take n := by
  intro l1
  induction l1 with
  | nil =>
    intro l2 n hn
    have : n = 0 := Nat.le_zero.mp hn
    subst this; rfl
  | cons a l1 ih =>
    intro l2 n hn
    cases n with
    | zero => rfl
    | succ n =>
      simp only [List.cons_append, List.take, List.append_eq]
      rw [ih l2 n (Nat.le_of_succ_le_succ hn)]

/-- A fold whose every step either leaves the heap alone or writes one
cell at its own reference preserves any prefix below all references. -/
theorem fold_heap_take (step : PWorld → Nat → PWorld)
    (hstep : ∀ (w : PWorld) (r : Nat),
      (step w r).heap = w.heap ∨ ∃ p, (step w r).heap = w.heap.set r p)
    (n : Nat) :
    ∀ (rs : List Nat) (w : PWorld), (∀ r ∈ rs, n ≤ r) →
    (rs.foldl step w).heap.take n = w.heap.take n := by
  intro rs
  induction rs with
  | nil => intro w _; rfl
  | cons r rs ih =>
    intro w hr
    have h1 : n ≤ r := hr r (List.mem_cons_self r rs)
    have h2 : ∀ x ∈ rs, n ≤ x := fun x hx => hr x (List.mem_cons_of_mem r hx)
    rw [List.foldl_cons, ih (step w r) h2]
    rcases hstep w r with h | ⟨p, h⟩
    · rw [h]
    · rw [h, take_set_of_le p w.heap r n h1]

/-- Entering or exiting a scope writes patcher cells only at the scope's
own references: any heap prefix below all of them is unchanged. -/
theorem apply_scope_op_take (s : ResultAiObj) (n : Nat)
    (href : ∀ r ∈ s.patcher_refs, n ≤ r) (w : PWorld) (op : ScopeOp) :
    (apply_scope_op s w op).heap.take n = w.heap.take n := by
  cases op with
  | enterOp env sid =>
    simp only [apply_scope_op, result_ai_enter_heap]
    by_cases he : s.enabled
    · rw [if_pos he]
      refine fold_heap_take _ ?_ n s.patcher_refs w href
      intro w1 r
      cases hg : w1.heap.get? r with
      | none => left; simp [hg]
      | some p => right; exact ⟨(p.patch env sid w1.live).2, by simp [hg]⟩
    · rw [if_neg he]
  | exitOp =>
    simp only [apply_scope_op, result_ai_exit_heap]
    by_cases he : s.enabled
    · rw [if_pos he]
      refine fold_heap_take _ ?_ n s.patcher_refs w href
      intro w1 r
      cases hg : w1.heap.get? r with
      | none => left; simp [hg]
      | some p =>
        cases hu : p.unpatch (fun _ => false) w1.live with
        | none => left; simp [hg, hu]
        | some lp => right; exact ⟨lp.2, by simp [hg, hu]⟩
    · rw [if_neg he]

/-- Any sequence of enter/exit operations on one scope preserves any
heap prefix below all of that scope's references. -/
theorem run_scope_ops_take (s : ResultAiObj) (n : Nat)
    (href : ∀ r ∈ s.patcher_refs, n ≤ r) :
    ∀ (ops : List ScopeOp) (w : PWorld),
    (run_scope_ops s w ops).heap.take n = w.heap.take n := by
  intro ops
  induction ops with
  | nil => intro w; rfl
  | cons op ops ih =>
    intro w
    simp only [run_scope_ops]
    rw [ih (apply_scope_op s w op), apply_scope_op_take s n href w op]

/-- The references `__init__` hands the scope all point at the freshly
allocated deep copies, beyond the pre-existing heap. -/
theorem result_ai_init_heap_refs (enabled : Bool) (w : PWorld) :
    ∀ r ∈ (result_ai_init_heap enabled w).2.patcher_refs,
    w.heap.length ≤ r := by
  intro r hr
  cases enabled with
  | false => simp [result_ai_init_heap] at hr
  | true =>
    simp only [result_ai_init_heap, if_pos] at hr
    simp only [List.mem_map, List.mem_range] at hr
    obtain ⟨i, _, rfl⟩ := hr
    exact Nat.le_add_left _ _

/-- `__init__` only appends the deep copies: the pre-existing heap
prefix is unchanged. -/
theorem result_ai_init_heap_take (enabled : Bool) (w : PWorld) (n : Nat)
    (hn : n ≤ w.heap.length) :
    (result_ai_init_heap enabled w).1.heap.take n = w.heap.take n := by
  cases enabled with
  | false => rfl
  | true =>
    simp only [result_ai_init_heap, if_pos]
    exact take_append_left_of_le w.heap _ n hn

/-!  Lemmas about the batching worker. -/

/-- With the configured `BATCH_SIZE = 1`, every drained item triggers a
flush. -/
theorem batch_size_reached (batch : List Nat) (item : Nat) :
    BATCH_SIZE ≤ (batch ++ [item]).length := by
  simp [BATCH_SIZE]

/-- One flush request per drained item, carrying exactly the API key
read from the environment AT that flush. -/
theorem run_queue_worker_requests :
    ∀ (evs : List ItemEvent) (t0 : Nat) (notif : Bool),
    (run_queue_worker ⟨[], t0, notif⟩ evs).2.1 =
      evs.map (fun ev =>
        ⟨API_SETTINGS_endpoint, [ev.item], ev.env_api_key.getD ""⟩) := by
  intro evs
  induction evs with
  | nil => intro t0 notif; rfl
  | cons ev evs ih =>
    intro t0 notif
    simp only [run_queue_worker, process_queue_item]
    rw [if_pos (Or.inl (batch_size_reached [] ev.item))]
    simp only [List.nil_append, List.map_cons, List.cons_append,
      List.append_eq]
    rw [ih]

/-- Once the missing-key notice has been given, the worker never warns
again. -/
theorem run_queue_worker_warnings_notified :
    ∀ (evs : List ItemEvent) (st : QueueWorkerState),
    st.notified_no_api_key = true → (run_queue_worker st evs).2.2 = 0 := by
  intro evs
  induction evs with
  | nil => intro st _; rfl
  | cons ev evs ih =>
    intro st hn
    simp only [run_queue_worker, process_queue_item]
    rw [if_pos (Or.inl (batch_size_reached st.batch ev.item))]
    simp only [hn, Bool.not_true, Bool.and_false, if_false]
    rw [ih _ rfl]
    simp

/-- The worker warns about a missing API key at most once over its whole
lifetime, from any starting state. -/
theorem run_queue_worker_warn_le_one :
    ∀ (evs : List ItemEvent) (st : QueueWorkerState),
    (run_queue_worker st evs).2.2 ≤ 1 := by
  intro evs
  induction evs with
  | nil => intro st; exact Nat.zero_le 1
  | cons ev evs ih =>
    intro st
    simp only [run_queue_worker, process_queue_item]
    rw [if_pos (Or.inl (batch_size_reached st.batch ev.item))]
    by_cases hw :
        ((ev.env_api_key.getD "" == "") && !st.notified_no_api_key) = true
    · simp only [hw, if_true]
      rw [run_queue_worker_warnings_notified evs _ rfl]
    · have hw' :
          ((ev.env_api_key.getD "" == "") && !st.notified_no_api_key) = false := by
        revert hw
        cases (ev.env_api_key.getD "" == "") && !st.notified_no_api_key <;> simp
      simp only [hw', if_false]
      simpa using ih ⟨[], if ev.post_ok then ev.current_time
        else st.last_send_time, st.notified_no_api_key⟩

/-!  Claim theorems. -/

/-- Claim C1, counterexample: in the legacy `testai_sdk` interceptor
`new_create` (core.py 139-191), a bookkeeping failure AFTER the delegate
returned is logged and re-raised: with the delegate returning value `3`
and the bookkeeping step raising exception `7`, the caller receives the
exception, not the delegate's value — so the claim that bookkeeping
failures never propagate and never change the returned result is false
for this cited interceptor. -/
theorem new_create_drops_delegate_result_on_bookkeeping_error :
    (new_create ("t") (some 7) (Except.ok 3)).result = Except.error 7 ∧
    (new_create ("t") (some 7) (Except.ok 3)).result ≠ Except.ok 3 ∧
    (new_create ("t") (some 7) (Except.ok 3)).enqueued = [] := by
  decide

/-- Claim C1, amended: in the `result_ai_sdk` interceptor
`result_ai_wrapper` (patch.py 127-192), whenever the delegate returns a
value the caller receives exactly that value, whatever the pre-hook and
post-hook bookkeeping oracles do; the legacy `new_create` delivers the
delegate's value only when its bookkeeping does not raise. -/
theorem interceptor_returns_delegate_result (tn pt : String)
    (patcher : FunctionPatcher) (pre post : Bool) (v : Nat) :
    (result_ai_wrapper tn pt patcher pre post (Except.ok v)).result =
      Except.ok v ∧
    (new_create tn none (Except.ok v)).result = Except.ok v := by
  cases pre <;> cases post <;> exact ⟨rfl, rfl⟩

/-- Claim C5: when the delegated original callable raises, both
interceptors propagate exactly that exception and enqueue no telemetry
record — `result_ai_wrapper` calls the delegate outside every try block,
and `new_create` re-raises the caught exception unchanged before
reaching its enqueue. -/
theorem delegate_error_propagates_no_record (tn pt : String)
    (patcher : FunctionPatcher) (pre post : Bool) (bf : Option Nat)
    (e : Nat) :
    result_ai_wrapper tn pt patcher pre post (Except.error e) =
      { result := Except.error e, enqueued := [] } ∧
    new_create tn bf (Except.error e) =
      { result := Except.error e, enqueued := [] } :=
  ⟨rfl, rfl⟩

/-- Claim C6, counterexample: `convert_to_json_serializable` catches
only `TypeError`; on an input whose strict encoding fails with
`ValueError` (a circular reference), the fallback is not taken and the
exception propagates, so the function is not total on caller-supplied
data. -/
theorem convert_raises_on_value_error :
    json_dumps (PyObj.circular 0) = Except.error JsonError.valueError ∧
    convert_to_json_serializable (PyObj.circular 0) true =
      Except.error JsonError.valueError :=
  ⟨rfl, rfl⟩

/-- Claim C6, amended: whenever the strict encoding fails with a
`TypeError` — the only failure the source catches —
`convert_to_json_serializable` takes the fallback
`json.loads(jsonpickle.encode(...))` path and returns a value without
raising. -/
theorem convert_total_on_type_error (obj : PyObj) (sw : Bool)
    (h : json_dumps obj = Except.error JsonError.typeError) :
    convert_to_json_serializable obj sw =
      Except.ok (json_loads (jsonpickle_encode obj)) := by
  cases obj with
  | jsonOk d => simp [json_dumps] at h
  | nonSerializable d => rfl
  | circular d => simp [json_dumps] at h

/-- Witness for the amended C6 claim at a concrete non-serializable
object. -/
theorem convert_total_on_type_error_witness :
    json_dumps (PyObj.nonSerializable 5) = Except.error JsonError.typeError ∧
    convert_to_json_serializable (PyObj.nonSerializable 5) true =
      Except.ok (json_loads (jsonpickle_encode (PyObj.nonSerializable 5))) :=
  ⟨rfl, convert_total_on_type_error (PyObj.nonSerializable 5) true rfl⟩

/-- Claim C9, counterexample: `start_queue_worker` has no started-flag
guard — after two calls two workers are running, so the operation is not
idempotent and "at most one worker afterwards" fails. -/
theorem start_queue_worker_not_idempotent :
    start_queue_worker (start_queue_worker 0) = 2 ∧
    ¬ start_queue_worker (start_queue_worker 0) ≤ 1 := by
  decide

/-- Claim C9, amended: every call to `start_queue_worker` starts one
additional worker (`k` calls leave `k` workers running); at most one
worker runs in practice only because the sole call site is the
module-level statement of patch.py, executed once per process at
import. -/
theorem start_queue_worker_adds_one_worker (k n : Nat) :
    start_queue_worker n = n + 1 ∧ start_queue_worker_calls k = k ∧
    patch_module_init_workers = 1 := by
  refine ⟨rfl, ?_, rfl⟩
  induction k with
  | zero => rfl
  | succ k ih => simp [start_queue_worker_calls, start_queue_worker, ih]

/-- Claim C2: for a scope over initially-unpatched patchers with
pairwise distinct targets, after `__exit__` (which Python's `with`
statement runs whether the body completed normally or raised — the
raised exception `exctype` is ignored by the source), every live entry
point is identical to what it was immediately before `__enter__`; the
same holds for the legacy single-target `result_ai_cm`. -/
theorem scope_exit_restores_live_entry_points
    (env : String → Option String) (sid : Nat) (tn pt : String)
    (ps : List FunctionPatcher) (live : Target → PyVal)
    (exctype : Option Nat) (t : Target)
    (hnd : (ps.map FunctionPatcher.target).Nodup)
    (hfresh : ∀ p ∈ ps, p.patched = false) :
    (result_ai_exit (fun _ => false) exctype
        (result_ai_enter env sid ⟨true, tn, pt, ps⟩ live).2
        (result_ai_enter env sid ⟨true, tn, pt, ps⟩ live).1).1 t = live t ∧
    (core_cm_exit (core_cm_enter sid live).2 (core_cm_enter sid live).1).1 t
      = live t := by
  constructor
  · have h := patch_unpatch_roundtrip env sid ps live t hnd hfresh
    simpa [result_ai_enter, result_ai_exit] using h
  · by_cases ht : t = openaiPatcher.target
    · subst ht; simp [core_cm_exit, core_cm_enter, upd]
    · simp [core_cm_exit, core_cm_enter, upd, ht]

/-- Witness for C2: the configured two-target scope under a process with
both libraries installed restores the openai entry point. -/
theorem scope_exit_restores_live_entry_points_witness :
    (result_ai_exit (fun _ => false) none
        (result_ai_enter sampleEnv 0
          ⟨true, "task", "tpl", SUPPORTED_MODULES_TO_PATCH⟩ initLive).2
        (result_ai_enter sampleEnv 0
          ⟨true, "task", "tpl", SUPPORTED_MODULES_TO_PATCH⟩ initLive).1).1
      openaiTargetKey = initLive openaiTargetKey ∧
    (core_cm_exit (core_cm_enter 0 initLive).2
        (core_cm_enter 0 initLive).1).1 openaiTargetKey =
      initLive openaiTargetKey :=
  scope_exit_restores_live_entry_points sampleEnv 0 ("task") ("tpl")
    SUPPORTED_MODULES_TO_PATCH initLive none openaiTargetKey (by decide)
    (by decide)

/-- Claim C3, counterexample: with both configured targets patched, a
single failing restoration of the FIRST target makes `__exit__` raise
and leaves the SECOND target still wrapped — not every other target ends
up restored, because the source has no per-target try/except in the
`__exit__` loop. -/
theorem restore_failure_blocks_remaining_targets :
    (c3_entered.2.map (fun q => q.patched)) = [true, true] ∧
    c3_exit.2.2 = true ∧
    c3_exit.1 langchainTargetKey = PyVal.wrapper (PyVal.func 0) 0 ∧
    c3_exit.1 langchainTargetKey ≠ initLive langchainTargetKey := by
  decide

/-- Claim C3, amended: when restoring one patched target raises, the
exception is NOT caught per target: it propagates out of
`result_ai.__exit__`, the targets before the failing one in the list are
restored, and the failing target and every target after it are left
untouched. -/
theorem restore_failure_propagates_and_skips_rest
    (fails : Target → Bool) (tn pt : String)
    (pre : List FunctionPatcher) (pbad : FunctionPatcher)
    (post : List FunctionPatcher) (live : Target → PyVal)
    (exctype : Option Nat)
    (hpre : ∀ p ∈ pre, fails p.target = false)
    (hf : fails pbad.target = true) (hp : pbad.patched = true) :
    result_ai_exit fails exctype ⟨true, tn, pt, pre ++ pbad :: post⟩ live =
      ((unpatchAll fails pre live).1,
       (unpatchAll fails pre live).2.1 ++ pbad :: post, true) :=
  unpatchAll_failure_split fails pre pbad post live hpre hf hp

/-- Witness for the amended C3 claim: one patched openai record whose
restoration fails, followed by a patched langchain record. -/
theorem restore_failure_propagates_and_skips_rest_witness :
    result_ai_exit c3_fails none
        ⟨true, "t", "p", [] ++ c3_pbad :: c3_post⟩ initLive =
      ((unpatchAll c3_fails [] initLive).1,
       (unpatchAll c3_fails [] initLive).2.1 ++ c3_pbad :: c3_post, true) :=
  restore_failure_propagates_and_skips_rest c3_fails ("t") ("p") [] c3_pbad
    c3_post initLive none (by decide) (by decide) (by decide)

/-- Claim C4 (code bug): after `patch()` the invariant holds (patched
with the original saved), but after `unpatch()` the record has
`patched = True` while `original_func = None` — `unpatch` never resets
the flag, so "patched iff original non-null" is violated as soon as
`unpatch` returns, and a second `unpatch()` then installs `None` as the
live entry point. -/
theorem unpatch_leaves_patched_flag_set :
    (c4_patched_state.2.patched = true ∧
     c4_patched_state.2.original_func = PyVal.func 0 ∧
     c4_patched_state.1 openaiTargetKey =
       PyVal.wrapper (PyVal.func 0) 0) ∧
    c4_after_unpatch.map (fun r => r.2.patched) = some true ∧
    c4_after_unpatch.map (fun r => r.2.original_func) = some PyVal.pynone ∧
    c4_after_second_unpatch.map (fun r => r.1 openaiTargetKey) =
      some PyVal.pynone := by
  decide

/-- Claim C7: a target whose version gate fails (library absent or
version out of bounds) is never patched — `patch` leaves the live table
and the record untouched, so nothing is saved; `unpatch` on the still
unpatched record is a no-op; and in the `__enter__` loop the skipped
target leaves the other patchers processed exactly as without it, each
compatible one ending up patched. -/
theorem unsupported_target_never_patched
    (env : String → Option String) (sid : Nat) (p : FunctionPatcher)
    (ps : List FunctionPatcher) (live : Target → PyVal)
    (fails : Target → Bool)
    (hU : p.is_module_version_supported env = false)
    (hP : p.patched = false) :
    p.patch env sid live = (live, p) ∧
    p.unpatch fails live = some (live, p) ∧
    patchAll env sid (p :: ps) live =
      ((patchAll env sid ps live).1, p :: (patchAll env sid ps live).2) ∧
    ((patchAll env sid ps live).2).map (fun q => q.patched) =
      ps.map (fun q => q.patched || q.is_module_version_supported env) := by
  refine ⟨?_, ?_, ?_, patchAll_patched_map env sid ps live⟩
  · simp [FunctionPatcher.patch, hU]
  · simp [FunctionPatcher.unpatch, hP]
  · simp only [patchAll, FunctionPatcher.patch, hU, if_pos]

/-- Witness for C7: under a process with openai 0.9.0 (below the 1.0.0
minimum) the openai target is skipped while the langchain target still
activates. -/
theorem unsupported_target_never_patched_witness :
    openaiPatcher.is_module_version_supported lowEnv = false ∧
    openaiPatcher.patch lowEnv 0 initLive = (initLive, openaiPatcher) ∧
    openaiPatcher.unpatch (fun _ => false) initLive =
      some (initLive, openaiPatcher) ∧
    ((patchAll lowEnv 0 [langchainPatcher] initLive).2).map
        (fun q => q.patched) = [true] := by
  have h := unsupported_target_never_patched lowEnv 0 openaiPatcher
    [langchainPatcher] initLive (fun _ => false) (by decide) (by decide)
  exact ⟨by decide, h.1, h.2.1, by decide⟩

/-- Claim C8: over any trace of drained items, the worker issues one
flush request per item whose credential is exactly the value read from
the environment AT that flush (`""` when the key is absent — the request
is still sent), and the missing-key warning is logged at most once over
the worker's whole lifetime. -/
theorem queue_worker_warns_once_and_rereads_key (t0 : Nat)
    (evs : List ItemEvent) :
    (run_queue_worker ⟨[], t0, false⟩ evs).2.1 =
      evs.map (fun ev =>
        ⟨API_SETTINGS_endpoint, [ev.item], ev.env_api_key.getD ""⟩) ∧
    (run_queue_worker ⟨[], t0, false⟩ evs).2.2 ≤ 1 :=
  ⟨run_queue_worker_requests evs t0 false,
   run_queue_worker_warn_le_one evs ⟨[], t0, false⟩⟩

/-- Claim C10: constructing a scope deep-copies the patcher records into
fresh heap cells, and any sequence of enter/exit operations on the scope
writes only those cells — every pre-existing heap prefix, in particular
the cells holding the shared `SUPPORTED_MODULES_TO_PATCH` entries, is
unchanged. -/
theorem scope_ops_preserve_supported_modules
    (w : PWorld) (enabled : Bool) (ops : List ScopeOp) (n : Nat)
    (hn : n ≤ w.heap.length) :
    (run_scope_ops (result_ai_init_heap enabled w).2
        (result_ai_init_heap enabled w).1 ops).heap.take n =
      w.heap.take n := by
  have href : ∀ r ∈ (result_ai_init_heap enabled w).2.patcher_refs, n ≤ r :=
    fun r hr => le_trans hn (result_ai_init_heap_refs enabled w r hr)
  rw [run_scope_ops_take (result_ai_init_heap enabled w).2 n href ops
    (result_ai_init_heap enabled w).1]
  exact result_ai_init_heap_take enabled w n hn

/-- Witness for C10: an enabled scope entered and exited over the world
holding the two shared records leaves both shared records unchanged. -/
theorem scope_ops_preserve_supported_modules_witness :
    (run_scope_ops (result_ai_init_heap true c10_world).2
        (result_ai_init_heap true c10_world).1
        [ScopeOp.enterOp sampleEnv 0, ScopeOp.exitOp]).heap.take 2 =
      c10_world.heap.take 2 :=
  scope_ops_preserve_supported_modules c10_world true
    [ScopeOp.enterOp sampleEnv 0, ScopeOp.exitOp] 2 (by decide)
